import Mathlib

/-!
Verification of the MIRA chatbot page (`src/index.tsx`, with the variant
module in `src/unnamed/part_000`) against its natural-language
specification.  The page's event handlers are embedded as pure functions
over an explicit application state; the remote chat call's outcome and the
current clock reading (`Date.now()`) are passed in as parameters, and the
externally visible effects (transcript turns, spoken utterances, messages
forwarded to the remote session, the persisted reminder list) are fields
of the state.  DOM rendering (the loading indicator, `renderReminders`,
scrolling, CSS classes) has no observable content beyond that state and is
not modelled.  The browser's `localStorage` under the single fixed key
`'reminders'` together with `JSON.stringify`/`JSON.parse` is modelled as a
typed slot `Option (List Reminder)`: the platform's JSON serialization of
these records is injective and round-trips, so the slot holds the typed
array directly.
-/

/-- A reminder record, `type Reminder = { id: number; text: string }`
from `src/index.tsx`.  `id` is assigned from `Date.now()`, modelled as a
natural number. -/
structure Reminder where
  id : Nat
  text : String
deriving DecidableEq, Repr

/-- The two senders of chat turns, `'user' | 'mira'` in `appendMessage`. -/
inductive Speaker where
  | user
  | mira
deriving DecidableEq, Repr

/-- One displayed chat turn (one `appendMessage` call). -/
structure ChatTurn where
  speaker : Speaker
  text : String
deriving DecidableEq, Repr

/-- The observable application state: the transcript (`chat-history`
contents, append-only), the in-memory `reminders` array, the persisted
copy under the `'reminders'` key of `localStorage` (`none` = key absent),
the utterances handed to `speak`, and the messages forwarded to the
remote conversation session via `chat.sendMessage`. -/
structure AppState where
  transcript : List ChatTurn
  reminders : List Reminder
  stored : Option (List Reminder)
  spoken : List String
  sentToRemote : List String
deriving DecidableEq, Repr

/-- The state at page load: empty transcript, no reminders, nothing
persisted, nothing spoken or sent. -/
def initialState : AppState :=
  { transcript := [], reminders := [], stored := none, spoken := [], sentToRemote := [] }

/-- Outcome of the one remote call a turn makes: the promise resolves
with the reply text, or it rejects. -/
inductive RemoteResult where
  | success (reply : String)
  | failure
deriving DecidableEq, Repr

/-- ECMAScript whitespace as used by `String.prototype.trim`: the
WhiteSpace production (TAB VT FF SP NBSP ZWNBSP and the Zs category) plus
the LineTerminator production (LF CR LS PS). -/
def isJsWhitespace (c : Char) : Bool :=
  c = ' ' || c = '\t' || c = '\n' || c = '\r' ||
  c = Char.ofNat 0x0B || c = Char.ofNat 0x0C ||
  c = Char.ofNat 0xA0 || c = Char.ofNat 0x1680 ||
  (0x2000 ≤ c.toNat && c.toNat ≤ 0x200A) ||
  c = Char.ofNat 0x2028 || c = Char.ofNat 0x2029 ||
  c = Char.ofNat 0x202F || c = Char.ofNat 0x205F ||
  c = Char.ofNat 0x3000 || c = Char.ofNat 0xFEFF

/-- JavaScript `message.trim()`: drop leading and trailing whitespace. -/
def jsTrim (s : String) : String :=
  ⟨((s.data.dropWhile isJsWhitespace).reverse.dropWhile isJsWhitespace).reverse⟩

/-- JavaScript `message.toLowerCase()`.  The strings this program
compares are basic-latin, where the Unicode lowering agrees with
`Char.toLower`. -/
def jsToLower (s : String) : String :=
  ⟨s.data.map Char.toLower⟩

/-- JavaScript `s.startsWith(p)`. -/
def jsStartsWith (s p : String) : Bool :=
  p.data.isPrefixOf s.data

/-- JavaScript `s.substring(n)`: the characters from index `n` on. -/
def jsSubstring (s : String) (n : Nat) : String :=
  ⟨s.data.drop n⟩

/-- The fixed trigger phrase of the message router,
`'remind me to'` in `sendMessageToMira`. -/
def triggerPhrase : String := "remind me to"

/-- The confirmation turn built in the trigger branch:
`` `I've added a reminder for you: "${reminderText}"` ``. -/
def confirmationFor (reminderText : String) : String :=
  "I've added a reminder for you: \"" ++ reminderText ++ "\""

/-- The fixed apology substituted when the remote call rejects. -/
def apologyReply : String :=
  "I apologize, but I had a little trouble connecting. Could you please try again?"

/-- The `speak` function: hands one utterance to the speech synthesis
(cancelling any current one and sampling the rate are not observable in
this state). -/
def speak (text : String) (st : AppState) : AppState :=
  { st with spoken := st.spoken ++ [text] }

/-- The `appendMessage` function: appends one turn to the transcript. -/
def appendMessage (text : String) (sender : Speaker) (st : AppState) : AppState :=
  { st with transcript := st.transcript ++ [⟨sender, text⟩] }

/-- The `saveReminders` function:
`localStorage.setItem('reminders', JSON.stringify(reminders))`. -/
def saveReminders (st : AppState) : AppState :=
  { st with stored := some st.reminders }

/-- The `loadReminders` function: read the `'reminders'` key and, when
present, replace the in-memory list with the parsed value (absence keeps
the current — initially empty — list). -/
def loadReminders (st : AppState) : AppState :=
  match st.stored with
  | some rs => { st with reminders := rs }
  | none => st

/-- The `addReminder` function: push `{ id: Date.now(), text }`, then
persist; `now` is the clock reading at the call. -/
def addReminder (now : Nat) (text : String) (st : AppState) : AppState :=
  saveReminders { st with reminders := st.reminders ++ [⟨now, text⟩] }

/-- The `deleteReminder` function:
`reminders = reminders.filter(reminder => reminder.id !== id)`, then
persist. -/
def deleteReminder (i : Nat) (st : AppState) : AppState :=
  saveReminders { st with reminders := st.reminders.filter (fun r => r.id != i) }

/-- A sequence of `addReminder` calls, each with its own clock reading. -/
def addAll (l : List (Nat × String)) (st : AppState) : AppState :=
  l.foldl (fun s p => addReminder p.1 p.2 s) st

/-- The `sendMessageToMira` handler for one submitted message.  Empty
(after `trim`) messages return at once; otherwise the user turn is
appended, then either the trigger branch intercepts the message (a
reminder is added, the confirmation is appended and spoken, and the
remote session is never reached), or the message is forwarded once to
the remote session, whose outcome `remote` yields the reply turn or —
when the promise rejects, caught by the `try`/`catch` — the fixed
apology.  The function is total: no exception escapes to the caller. -/
def sendMessageToMira (now : Nat) (remote : RemoteResult) (message : String)
    (st : AppState) : AppState :=
  if jsTrim message = "" then st
  else
    let st1 := appendMessage message Speaker.user st
    if jsStartsWith (jsToLower message) triggerPhrase then
      let reminderText := jsTrim (jsSubstring message triggerPhrase.length)
      let st2 := addReminder now reminderText st1
      let confirmation := confirmationFor reminderText
      speak confirmation (appendMessage confirmation Speaker.mira st2)
    else
      match remote with
      | RemoteResult.success reply =>
        speak reply (appendMessage reply Speaker.mira
          { st1 with sentToRemote := st1.sentToRemote ++ [message] })
      | RemoteResult.failure =>
        speak apologyReply (appendMessage apologyReply Speaker.mira
          { st1 with sentToRemote := st1.sentToRemote ++ [message] })

/-- Actions the microphone button click handler can take, in order. -/
inductive VoiceAction where
  | cancelSpeech
  | startRecognition
  | stopRecognition
deriving DecidableEq, Repr

/-- The `micButton` click handler of `src/index.tsx`: when already
listening it stops recognition and returns; otherwise it cancels any
ongoing speech output and then starts recognition. -/
def micButtonClick (isListening : Bool) : List VoiceAction :=
  if isListening then [VoiceAction.stopRecognition]
  else [VoiceAction.cancelSpeech, VoiceAction.startRecognition]

/-- The fixed message of the `recognition.onerror` handler in
`src/index.tsx`. -/
def speechErrorReply : String :=
  "I'm sorry, I couldn't hear that. Please try again."

/-- The `recognition.onerror` handler of `src/index.tsx`: every error,
whatever `event.error` holds, appends and speaks the one fixed message. -/
def recognitionOnError (error : String) (st : AppState) : AppState :=
  let errorMessage := speechErrorReply
  speak errorMessage (appendMessage errorMessage Speaker.mira st)

/-- Fixed message for `event.error = 'network'` in the variant handler. -/
def netTroubleReply : String :=
  "I'm having trouble connecting to the voice service. Could you please check your internet connection and try again?"

/-- Fixed message for `event.error = 'no-speech'` in the variant handler. -/
def noSpeechReply : String :=
  "I didn't seem to hear anything. Please try speaking again."

/-- Fixed message for `event.error = 'not-allowed'` or
`'service-not-allowed'` in the variant handler. -/
def micPermissionReply : String :=
  "It seems I do not have permission to use your microphone. You may need to allow it in your browser settings."

/-- Fixed default message of the variant handler's `switch`. -/
def notUnderstoodReply : String :=
  "I'm sorry, I couldn't quite understand that. Please try again."

/-- The `recognition.onerror` handler of `src/unnamed/part_000`: a
user-initiated `'aborted'` returns silently; otherwise the `switch` on
`event.error` picks one of four fixed messages, which is appended and
spoken. -/
def recognitionOnErrorPart0 (error : String) (st : AppState) : AppState :=
  if error = "aborted" then st
  else
    let errorMessage :=
      if error = "network" then netTroubleReply
      else if error = "no-speech" then noSpeechReply
      else if error = "not-allowed" ∨ error = "service-not-allowed" then micPermissionReply
      else notUnderstoodReply
    speak errorMessage (appendMessage errorMessage Speaker.mira st)

/-- Whitespace characters are untouched by `Char.toLower` (none lies in
the basic-latin upper-case range). -/
theorem toLower_of_isJsWhitespace {c : Char} (h : isJsWhitespace c = true) :
    Char.toLower c = c := by
  simp only [isJsWhitespace, Bool.or_eq_true, decide_eq_true_eq, Bool.and_eq_true] at h
  rcases h with ((((((((((((((h | h) | h) | h) | h) | h) | h) | h) | ⟨h1, h2⟩) | h) | h) | h) | h) | h) | h) <;>
    first
      | (subst h; decide)
      | (simp only [Char.toLower]
         rw [if_neg (by omega)])

/-- A character list all of whose members pass the predicate after an
initial `dropWhile` passes it everywhere. -/
theorem forall_mem_dropWhile_iff (p : Char → Bool) (l : List Char) :
    (∀ x ∈ l.dropWhile p, p x = true) ↔ (∀ x ∈ l, p x = true) := by
  induction l with
  | nil => simp
  | cons c t ih =>
    by_cases hc : p c = true
    · rw [List.dropWhile_cons_of_pos hc]
      rw [ih]
      constructor
      · intro hall x hx
        rcases List.mem_cons.mp hx with hx | hx
        · rw [hx]; exact hc
        · exact hall x hx
      · intro hall x hx
        exact hall x (List.mem_cons_of_mem _ hx)
    · rw [List.dropWhile_cons_of_neg hc]

/-- A string trims to the empty string exactly when every character of
it is whitespace. -/
theorem jsTrim_eq_empty_iff (s : String) :
    jsTrim s = "" ↔ ∀ c ∈ s.data, isJsWhitespace c = true := by
  have hmk : ∀ l : List Char, String.mk l = "" ↔ l = [] := by
    intro l
    constructor
    · intro h
      have := congrArg String.data h
      simpa using this
    · intro h; rw [h]
  rw [jsTrim, hmk, List.reverse_eq_nil_iff, List.dropWhile_eq_nil_iff]
  simp only [List.mem_reverse]
  exact forall_mem_dropWhile_iff _ _

/-- A message whose lowering starts with the trigger phrase does not
trim to the empty string: its first character lowers to `r`. -/
theorem jsTrim_ne_empty_of_trigger (m : String)
    (h : jsStartsWith (jsToLower m) triggerPhrase = true) : jsTrim m ≠ "" := by
  intro hempty
  rw [jsTrim_eq_empty_iff] at hempty
  have hpre : triggerPhrase.data <+: (jsToLower m).data :=
    List.isPrefixOf_iff_prefix.mp (by simpa [jsStartsWith] using h)
  obtain ⟨ts, hts⟩ := hpre
  have hhead : (m.data.map Char.toLower).head? = some 'r' := by
    have hdata : (jsToLower m).data = m.data.map Char.toLower := rfl
    rw [← hdata, ← hts]
    rfl
  cases hm : m.data with
  | nil => rw [hm] at hhead; simp at hhead
  | cons c t =>
    rw [hm] at hhead
    simp only [List.map_cons, List.head?_cons, Option.some.injEq] at hhead
    have hc : isJsWhitespace c = true := by
      apply hempty
      rw [hm]
      exact List.mem_cons_self c t
    rw [toLower_of_isJsWhitespace hc] at hhead
    rw [hhead] at hc
    exact absurd hc (by decide)

/-- Behaviour of `sendMessageToMira` on the trigger branch: the message
is intercepted, one reminder (the message with the phrase stripped and
trimmed) is added and persisted, and the confirmation turn is appended
and spoken; nothing is forwarded to the remote session. -/
theorem send_trigger (now : Nat) (remote : RemoteResult) (m : String) (st : AppState)
    (h : jsStartsWith (jsToLower m) triggerPhrase = true) :
    sendMessageToMira now remote m st =
      { st with
          transcript := st.transcript ++
            [⟨Speaker.user, m⟩,
             ⟨Speaker.mira, confirmationFor (jsTrim (jsSubstring m triggerPhrase.length))⟩],
          reminders := st.reminders ++ [⟨now, jsTrim (jsSubstring m triggerPhrase.length)⟩],
          stored := some (st.reminders ++ [⟨now, jsTrim (jsSubstring m triggerPhrase.length)⟩]),
          spoken := st.spoken ++ [confirmationFor (jsTrim (jsSubstring m triggerPhrase.length))] } := by
  have hne := jsTrim_ne_empty_of_trigger m h
  rw [sendMessageToMira, if_neg hne]
  simp only [h, if_true]
  simp [speak, appendMessage, addReminder, saveReminders]

/-- C1: a submitted message that case-insensitively starts with the
trigger phrase `remind me to` is never forwarded to the remote session;
exactly one reminder is created, whose text is the message with the
phrase stripped and whitespace trimmed, and exactly one confirmation
turn of the form `I've added a reminder for you: "<text>"` is appended
and spoken. -/
theorem send_trigger_creates_reminder (now : Nat) (remote : RemoteResult) (m : String)
    (st : AppState) (h : jsStartsWith (jsToLower m) triggerPhrase = true) :
    (sendMessageToMira now remote m st).sentToRemote = st.sentToRemote ∧
    (sendMessageToMira now remote m st).reminders
      = st.reminders ++ [⟨now, jsTrim (jsSubstring m triggerPhrase.length)⟩] ∧
    (sendMessageToMira now remote m st).transcript
      = st.transcript ++
          [⟨Speaker.user, m⟩,
           ⟨Speaker.mira, confirmationFor (jsTrim (jsSubstring m triggerPhrase.length))⟩] ∧
    (sendMessageToMira now remote m st).spoken
      = st.spoken ++ [confirmationFor (jsTrim (jsSubstring m triggerPhrase.length))] := by
  rw [send_trigger now remote m st h]
  exact ⟨rfl, rfl, rfl, rfl⟩

/-- C1 witness: `"Remind me to water the plants"` satisfies the trigger
hypothesis, strips and trims to `"water the plants"`, and the theorem
applied there yields that reminder while nothing reaches the remote
session. -/
theorem send_trigger_creates_reminder_witness :
    jsStartsWith (jsToLower "Remind me to water the plants") triggerPhrase = true ∧
    jsTrim (jsSubstring "Remind me to water the plants" triggerPhrase.length)
      = "water the plants" ∧
    (sendMessageToMira 0 RemoteResult.failure "Remind me to water the plants"
        initialState).reminders
      = initialState.reminders ++
          [⟨0, jsTrim (jsSubstring "Remind me to water the plants" triggerPhrase.length)⟩] ∧
    (sendMessageToMira 0 RemoteResult.failure "Remind me to water the plants"
        initialState).sentToRemote = initialState.sentToRemote := by
  refine ⟨by decide, by decide, ?_, ?_⟩
  · exact (send_trigger_creates_reminder 0 RemoteResult.failure
      "Remind me to water the plants" initialState (by decide)).2.1
  · exact (send_trigger_creates_reminder 0 RemoteResult.failure
      "Remind me to water the plants" initialState (by decide)).1

/-- C2: when the remote call rejects on a (non-empty, non-trigger) user
turn, the displayed and spoken assistant text is exactly the fixed
apology, the message was forwarded exactly once (no retry), and the
handler returns a well-defined state — the `catch` keeps any exception
from escaping to the caller. -/
theorem remote_failure_apology (now : Nat) (m : String) (st : AppState)
    (h1 : jsTrim m ≠ "") (h2 : jsStartsWith (jsToLower m) triggerPhrase = false) :
    sendMessageToMira now RemoteResult.failure m st =
      { st with
          transcript := st.transcript ++
            [⟨Speaker.user, m⟩, ⟨Speaker.mira, apologyReply⟩],
          spoken := st.spoken ++ [apologyReply],
          sentToRemote := st.sentToRemote ++ [m] } := by
  rw [sendMessageToMira, if_neg h1]
  simp [h2, speak, appendMessage]

/-- C2 witness: the theorem applied to the message `"hello"` with a
rejecting remote call. -/
theorem remote_failure_apology_witness :
    jsTrim "hello" ≠ "" ∧
    jsStartsWith (jsToLower "hello") triggerPhrase = false ∧
    sendMessageToMira 0 RemoteResult.failure "hello" initialState =
      { initialState with
          transcript := initialState.transcript ++
            [⟨Speaker.user, "hello"⟩, ⟨Speaker.mira, apologyReply⟩],
          spoken := initialState.spoken ++ [apologyReply],
          sentToRemote := initialState.sentToRemote ++ ["hello"] } :=
  ⟨by decide, by decide,
    remote_failure_apology 0 "hello" initialState (by decide) (by decide)⟩

/-- C3: a message with non-empty trimmed text appends exactly one user
turn and exactly one assistant turn — the reminder confirmation, the
model's reply, or the fixed apology; an empty or whitespace-only message
changes nothing: no turn, no reminder, no remote call. -/
theorem submit_appends_turns (now : Nat) (remote : RemoteResult) (m : String)
    (st : AppState) :
    (jsTrim m = "" → sendMessageToMira now remote m st = st) ∧
    (jsTrim m ≠ "" → ∃ a : String,
      (sendMessageToMira now remote m st).transcript
        = st.transcript ++ [⟨Speaker.user, m⟩, ⟨Speaker.mira, a⟩] ∧
      ((a = confirmationFor (jsTrim (jsSubstring m triggerPhrase.length)) ∧
          (sendMessageToMira now remote m st).sentToRemote = st.sentToRemote) ∨
        remote = RemoteResult.success a ∨
        (remote = RemoteResult.failure ∧ a = apologyReply))) := by
  constructor
  · intro he
    rw [sendMessageToMira, if_pos he]
  · intro hne
    by_cases ht : jsStartsWith (jsToLower m) triggerPhrase = true
    · refine ⟨confirmationFor (jsTrim (jsSubstring m triggerPhrase.length)), ?_, ?_⟩
      · rw [send_trigger now remote m st ht]
      · exact Or.inl ⟨rfl, by rw [send_trigger now remote m st ht]⟩
    · rw [Bool.not_eq_true] at ht
      cases remote with
      | success reply =>
        refine ⟨reply, ?_, Or.inr (Or.inl rfl)⟩
        rw [sendMessageToMira, if_neg hne]
        simp [ht, speak, appendMessage]
      | failure =>
        refine ⟨apologyReply, ?_, Or.inr (Or.inr ⟨rfl, rfl⟩)⟩
        rw [sendMessageToMira, if_neg hne]
        simp [ht, speak, appendMessage]

/-- C3 witness: the theorem applied to the whitespace-only message
`"  "` (nothing happens) and to the message `"hi"` with a successful
remote call (one user turn and one assistant turn). -/
theorem submit_appends_turns_witness :
    (jsTrim "  " = "" ∧
      sendMessageToMira 0 (RemoteResult.success "hey") "  " initialState = initialState) ∧
    (jsTrim "hi" ≠ "" ∧ ∃ a : String,
      (sendMessageToMira 0 (RemoteResult.success "hey") "hi" initialState).transcript
        = initialState.transcript ++ [⟨Speaker.user, "hi"⟩, ⟨Speaker.mira, a⟩] ∧
      ((a = confirmationFor (jsTrim (jsSubstring "hi" triggerPhrase.length)) ∧
          (sendMessageToMira 0 (RemoteResult.success "hey") "hi"
            initialState).sentToRemote = initialState.sentToRemote) ∨
        RemoteResult.success "hey" = RemoteResult.success a ∨
        (RemoteResult.success "hey" = RemoteResult.failure ∧ a = apologyReply))) := by
  constructor
  · exact ⟨by decide,
      (submit_appends_turns 0 (RemoteResult.success "hey") "  " initialState).1 (by decide)⟩
  · exact ⟨by decide,
      (submit_appends_turns 0 (RemoteResult.success "hey") "hi" initialState).2 (by decide)⟩

/-- C4: both mutating operations of the reminder store write through:
immediately after any `addReminder` and after any `deleteReminder`, the
persisted copy under the `'reminders'` key equals the in-memory list. -/
theorem reminder_store_write_through (now : Nat) (text : String) (i : Nat)
    (st : AppState) :
    (addReminder now text st).stored = some (addReminder now text st).reminders ∧
    (deleteReminder i st).stored = some (deleteReminder i st).reminders :=
  ⟨rfl, rfl⟩

/-- C6: adding `"call Sam"` to an empty store persists a one-entry
list, and a fresh session (empty memory, same persisted store) that runs
`loadReminders` reproduces exactly that entry with the id assigned at
creation. -/
theorem add_persist_reload_roundtrip (t : Nat) :
    (loadReminders
        { initialState with stored := (addReminder t "call Sam" initialState).stored }
      ).reminders = [⟨t, "call Sam"⟩] := rfl

/-- C8: the microphone button is a toggle: clicked while not listening
it cancels any ongoing speech output and only then starts recognition;
clicked while already listening it stops recognition instead of starting
a second session and does not cancel speech output. -/
theorem mic_toggle_cancels_speech :
    micButtonClick false = [VoiceAction.cancelSpeech, VoiceAction.startRecognition] ∧
    micButtonClick true = [VoiceAction.stopRecognition] := by
  decide

/-- When the ids in a reminder list are pairwise distinct, the filter
used by `deleteReminder` drops at most one element. -/
theorem length_le_filter_ne_succ (i : Nat) :
    ∀ l : List Reminder, (l.map Reminder.id).Nodup →
      l.length ≤ (l.filter (fun r => r.id != i)).length + 1 := by
  intro l
  induction l with
  | nil => intro _; simp
  | cons r t ih =>
    intro h
    rw [List.map_cons, List.nodup_cons] at h
    obtain ⟨hr, ht⟩ := h
    by_cases hri : r.id = i
    · rw [List.filter_cons_of_neg (by simp [hri])]
      have hkeep : t.filter (fun a => a.id != i) = t := by
        rw [List.filter_eq_self]
        intro a ha
        rw [bne_iff_ne]
        intro hai
        apply hr
        rw [hri, ← hai]
        exact List.mem_map_of_mem Reminder.id ha
      rw [hkeep]
      simp
    · rw [List.filter_cons_of_pos (by simp [hri])]
      have := ih ht
      simp only [List.length_cons]
      omega

/-- C5 counterexample: on a list holding two reminders that share the id
`1` (as two `addReminder` calls in the same millisecond produce),
`deleteReminder 1` removes both entries, not at most one. -/
theorem delete_duplicate_ids_removes_two :
    ({ initialState with
        reminders := [⟨1, "take pills"⟩, ⟨1, "call Sam"⟩] } : AppState).reminders.length
      = 2 ∧
    (deleteReminder 1
      { initialState with
          reminders := [⟨1, "take pills"⟩, ⟨1, "call Sam"⟩] }).reminders = [] := by
  decide

/-- C5 amended: `deleteReminder id` removes exactly the entries whose id
matches, keeping the others in their relative order with their contents
unchanged; when the list's ids are pairwise distinct (as when every add
used a fresh timestamp) it therefore removes at most one entry. -/
theorem delete_matching_only (i : Nat) (st : AppState)
    (h : (st.reminders.map Reminder.id).Nodup) :
    (deleteReminder i st).reminders.Sublist st.reminders ∧
    (∀ r ∈ st.reminders, r.id ≠ i → r ∈ (deleteReminder i st).reminders) ∧
    (∀ r ∈ (deleteReminder i st).reminders, r.id ≠ i) ∧
    st.reminders.length ≤ (deleteReminder i st).reminders.length + 1 := by
  have hrem : (deleteReminder i st).reminders
      = st.reminders.filter (fun r => r.id != i) := rfl
  rw [hrem]
  refine ⟨List.filter_sublist _, ?_, ?_, length_le_filter_ne_succ i st.reminders h⟩
  · intro r hrm hne
    exact List.mem_filter.mpr ⟨hrm, by rwa [bne_iff_ne]⟩
  · intro r hrm
    have := (List.mem_filter.mp hrm).2
    rwa [bne_iff_ne] at this

/-- C5 witness: the amended theorem applied to a two-entry list with
distinct ids, deleting id `1`: the survivors form a sublist and at most
one entry was removed. -/
theorem delete_matching_only_witness :
    ((([⟨1, "call Sam"⟩, ⟨2, "water the plants"⟩] : List Reminder).map Reminder.id).Nodup) ∧
    (deleteReminder 1
        { initialState with
            reminders := [⟨1, "call Sam"⟩, ⟨2, "water the plants"⟩] }).reminders.Sublist
      ([⟨1, "call Sam"⟩, ⟨2, "water the plants"⟩] : List Reminder) ∧
    (2 : Nat) ≤ (deleteReminder 1
        { initialState with
            reminders := [⟨1, "call Sam"⟩, ⟨2, "water the plants"⟩] }).reminders.length + 1 := by
  have h := delete_matching_only 1
    { initialState with reminders := [⟨1, "call Sam"⟩, ⟨2, "water the plants"⟩] }
    (by decide)
  exact ⟨by decide, h.1, h.2.2.2⟩

/-- C7 counterexample: in the handler shipped in `src/index.tsx` a
user-initiated abort (`event.error = 'aborted'`) produces a visible
message, and the `'network'` and `'no-speech'` categories produce the
same string — not four distinct ones. -/
theorem speech_error_single_message_cex :
    (recognitionOnError "aborted" initialState).transcript
      = [⟨Speaker.mira, speechErrorReply⟩] ∧
    recognitionOnError "network" initialState
      = recognitionOnError "no-speech" initialState := by
  decide

/-- C7 amended: the handler in `src/index.tsx` maps every recognition
error — abort included — to the single fixed message `I'm sorry, I
couldn't hear that. Please try again.`, appended and spoken; the
four-way taxonomy holds only for the variant handler of
`src/unnamed/part_000`, where abort is silent and the four categories
(network, no speech, permission, other) map to four pairwise-distinct
fixed messages. -/
theorem speech_error_message_taxonomy (e : String) (st : AppState)
    (h : e ∉ (["aborted", "network", "no-speech", "not-allowed",
               "service-not-allowed"] : List String)) :
    ((recognitionOnError e st).transcript
        = st.transcript ++ [⟨Speaker.mira, speechErrorReply⟩] ∧
      (recognitionOnError e st).spoken = st.spoken ++ [speechErrorReply]) ∧
    recognitionOnErrorPart0 "aborted" st = st ∧
    (recognitionOnErrorPart0 "network" st).transcript
      = st.transcript ++ [⟨Speaker.mira, netTroubleReply⟩] ∧
    (recognitionOnErrorPart0 "no-speech" st).transcript
      = st.transcript ++ [⟨Speaker.mira, noSpeechReply⟩] ∧
    (recognitionOnErrorPart0 "not-allowed" st).transcript
      = st.transcript ++ [⟨Speaker.mira, micPermissionReply⟩] ∧
    (recognitionOnErrorPart0 "service-not-allowed" st).transcript
      = st.transcript ++ [⟨Speaker.mira, micPermissionReply⟩] ∧
    (recognitionOnErrorPart0 e st).transcript
      = st.transcript ++ [⟨Speaker.mira, notUnderstoodReply⟩] ∧
    (recognitionOnErrorPart0 e st).spoken = st.spoken ++ [notUnderstoodReply] ∧
    ([netTroubleReply, noSpeechReply, micPermissionReply,
      notUnderstoodReply] : List String).Nodup := by
  simp only [List.mem_cons, List.not_mem_nil, or_false, not_or] at h
  obtain ⟨h1, h2, h3, h4, h5⟩ := h
  refine ⟨⟨rfl, rfl⟩, rfl, rfl, rfl, rfl, rfl, ?_, ?_, by decide⟩ <;>
    simp [recognitionOnErrorPart0, h1, h2, h3, h4, h5, speak, appendMessage]

/-- C7 witness: the amended theorem applied to the error category
`'audio-capture'` (not one of the named ones): the `src/index.tsx`
handler and the default arm of the variant handler both fire, and abort
is silent in the variant handler. -/
theorem speech_error_message_taxonomy_witness :
    ("audio-capture" ∉ (["aborted", "network", "no-speech", "not-allowed",
        "service-not-allowed"] : List String)) ∧
    recognitionOnErrorPart0 "aborted" initialState = initialState ∧
    (recognitionOnErrorPart0 "audio-capture" initialState).transcript
      = initialState.transcript ++ [⟨Speaker.mira, notUnderstoodReply⟩] ∧
    (recognitionOnError "audio-capture" initialState).transcript
      = initialState.transcript ++ [⟨Speaker.mira, speechErrorReply⟩] := by
  have h := speech_error_message_taxonomy "audio-capture" initialState (by decide)
  exact ⟨by decide, h.2.1, h.2.2.2.2.2.2.1, h.1.1⟩

/-- Unfolding `addAll`: the reminders after a sequence of adds are the
old ones followed by one entry per add, carrying that add's timestamp
as id. -/
theorem addAll_reminders (l : List (Nat × String)) :
    ∀ st : AppState,
      (addAll l st).reminders
        = st.reminders ++ l.map (fun p => (⟨p.1, p.2⟩ : Reminder)) := by
  induction l with
  | nil => intro st; simp [addAll]
  | cons p t ih =>
    intro st
    show (addAll t (addReminder p.1 p.2 st)).reminders = _
    rw [ih]
    simp [addReminder, saveReminders]

/-- C9 counterexample: two `addReminder` calls whose `Date.now()`
readings coincide (the same millisecond) produce two distinct reminders
with the same id — ids are not unique across all adds. -/
theorem same_timestamp_duplicate_ids :
    (addAll [(5, "take pills"), (5, "call Sam")] initialState).reminders
      = [⟨5, "take pills"⟩, ⟨5, "call Sam"⟩] ∧
    ¬ (((addAll [(5, "take pills"), (5, "call Sam")]
        initialState).reminders.map Reminder.id).Nodup) := by
  decide

/-- C9 amended: each add assigns its `Date.now()` reading as the id, and
ids are pairwise distinct provided the clock readings of the adds are
pairwise distinct; under same-millisecond collisions duplicates occur. -/
theorem distinct_timestamps_unique_ids (l : List (Nat × String))
    (h : (l.map Prod.fst).Nodup) :
    (∀ (now : Nat) (text : String) (st : AppState),
      (addReminder now text st).reminders = st.reminders ++ [⟨now, text⟩]) ∧
    ((addAll l initialState).reminders.map Reminder.id).Nodup := by
  refine ⟨fun now text st => rfl, ?_⟩
  rw [addAll_reminders l initialState]
  have h0 : initialState.reminders = [] := rfl
  rw [h0, List.nil_append, List.map_map]
  exact h

/-- C9 witness: the amended theorem applied to two adds at the distinct
timestamps `1` and `2`. -/
theorem distinct_timestamps_unique_ids_witness :
    ((([(1, "take pills"), (2, "call Sam")] : List (Nat × String)).map Prod.fst).Nodup) ∧
    ((addAll [(1, "take pills"), (2, "call Sam")] initialState).reminders.map
        Reminder.id).Nodup := by
  have h := distinct_timestamps_unique_ids [(1, "take pills"), (2, "call Sam")] (by decide)
  exact ⟨by decide, h.2⟩

/-- C10 counterexample: a message that is the trigger phrase with
LEADING whitespace passes the non-empty check but defeats the
`startsWith` test, so no reminder is created and the message is
forwarded to the remote session — "possibly with surrounding
whitespace" fails on the leading side. -/
theorem leading_whitespace_not_trigger :
    jsTrim " remind me to" ≠ "" ∧
    jsStartsWith (jsToLower " remind me to") triggerPhrase = false ∧
    (sendMessageToMira 0 (RemoteResult.success "Okay!") " remind me to"
      initialState).reminders = [] ∧
    (sendMessageToMira 0 (RemoteResult.success "Okay!") " remind me to"
      initialState).sentToRemote = [" remind me to"] := by
  refine ⟨by decide, by decide, by decide, by decide⟩

/-- C10 amended: a message that is exactly the trigger phrase in any
letter casing, possibly with TRAILING whitespace (no leading
whitespace), passes the non-empty check and creates a reminder whose
text is empty, appending and speaking the confirmation
`I've added a reminder for you: ""` without reaching the remote
session; leading whitespace instead defeats the prefix match and routes
the message to the remote session. -/
theorem bare_trigger_empty_reminder (now : Nat) (remote : RemoteResult) (st : AppState)
    (p w : List Char) (hp : p.map Char.toLower = triggerPhrase.data)
    (hw : ∀ c ∈ w, isJsWhitespace c = true) :
    (sendMessageToMira now remote (String.mk (p ++ w)) st).reminders
      = st.reminders ++ [⟨now, ""⟩] ∧
    (sendMessageToMira now remote (String.mk (p ++ w)) st).transcript
      = st.transcript ++
          [⟨Speaker.user, String.mk (p ++ w)⟩,
           ⟨Speaker.mira, "I've added a reminder for you: \"\""⟩] ∧
    (sendMessageToMira now remote (String.mk (p ++ w)) st).spoken
      = st.spoken ++ ["I've added a reminder for you: \"\""] ∧
    (sendMessageToMira now remote (String.mk (p ++ w)) st).sentToRemote
      = st.sentToRemote := by
  have hstart : jsStartsWith (jsToLower (String.mk (p ++ w))) triggerPhrase = true := by
    rw [jsStartsWith, List.isPrefixOf_iff_prefix]
    refine ⟨w.map Char.toLower, ?_⟩
    show triggerPhrase.data ++ w.map Char.toLower = (p ++ w).map Char.toLower
    rw [List.map_append, hp]
  have hplen : p.length = triggerPhrase.length := by
    have hlen := congrArg List.length hp
    rw [List.length_map] at hlen
    exact hlen
  have hsub : jsSubstring (String.mk (p ++ w)) triggerPhrase.length = String.mk w := by
    rw [jsSubstring, ← hplen]
    show String.mk ((p ++ w).drop p.length) = String.mk w
    rw [List.drop_left]
  have htrim : jsTrim (String.mk w) = "" :=
    (jsTrim_eq_empty_iff _).mpr (fun c hc => hw c hc)
  have hconf : confirmationFor "" = "I've added a reminder for you: \"\"" := by decide
  have h := send_trigger now remote (String.mk (p ++ w)) st hstart
  rw [hsub, htrim, hconf] at h
  rw [h]
  exact ⟨rfl, rfl, rfl, rfl⟩

/-- C10 witness: the amended theorem applied to the upper-case message
`REMIND ME TO` followed by one space: an empty-text reminder is created
and nothing reaches the remote session. -/
theorem bare_trigger_empty_reminder_witness :
    ("REMIND ME TO".data.map Char.toLower = triggerPhrase.data) ∧
    (∀ c ∈ ([' '] : List Char), isJsWhitespace c = true) ∧
    (sendMessageToMira 3 RemoteResult.failure
        (String.mk ("REMIND ME TO".data ++ [' '])) initialState).reminders
      = initialState.reminders ++ [⟨3, ""⟩] ∧
    (sendMessageToMira 3 RemoteResult.failure
        (String.mk ("REMIND ME TO".data ++ [' '])) initialState).sentToRemote
      = initialState.sentToRemote := by
  have h := bare_trigger_empty_reminder 3 RemoteResult.failure initialState
    "REMIND ME TO".data [' '] (by decide) (by decide)
  exact ⟨by decide, by decide, h.1, h.2.2.2⟩
